import Mathlib

/-!
Shallow embedding of the dataset-loading utilities of the
`differential-privacy-vs-fairness` repository (files
`src/dpdi/datasets/imdb_wiki.py` and `src/dpdi/datasets/lfw_dataset.py`).

DataFrames are modelled as Lean lists of row structures; column values that
the code treats as numbers are rationals (the code only does exact small
arithmetic on them); file I/O (`pd.read_csv`) is abstracted by passing the
table that would have been read as an argument; numpy's pseudo-random
draws are modelled by an explicit `pick` parameter with the properties the
numpy call guarantees (a without-replacement sample) stated as hypotheses.
Python exceptions (AssertionError, NotImplementedError, numpy/pandas
ValueError and IndexError) are modelled by an error value returned next to
the object state, so that mutation-before-raise is observable.
-/

namespace DPDI

/-- The Python exceptions the modelled code can raise. -/
inductive PyError where
  | assertionError
  | notImplementedError
  | valueError
  | indexError
deriving DecidableEq, Repr

/-- A row of the IMDB-Wiki `meta.csv` table after
`meta_df.replace({"male": 1, "female": 0})`: the `path`, `gender` and
`age` columns used by `IMDBWikiDataset` (its default `target_colname` is
`"age"` and default `attribute_colname` is `"gender"`). -/
structure ImdbRow where
  path : String
  gender : ℚ
  age : ℚ
deriving DecidableEq, Repr, Inhabited

/-- The `IMDBWikiDataset` object state relevant to the modelled methods:
`root_dir` and the in-memory `self.anno` table. The remaining constructor
fields (`transform`, `loader`, colnames, group keys) are constants. -/
structure IMDBWikiDataset where
  root_dir : String
  anno : List ImdbRow
deriving DecidableEq, Repr

/-- `self.majority_group_keys = (1,)` in `IMDBWikiDataset.__init__`. -/
def majority_group_keys : List ℚ := [1]

/-- `self.minority_group_keys = (0,)` in `IMDBWikiDataset.__init__`. -/
def minority_group_keys : List ℚ := [0]

namespace IMDBWikiDataset

/-- `IMDBWikiDataset.__len__`: `len(self.anno)`. -/
def len (d : IMDBWikiDataset) : Nat := d.anno.length

/-- `IMDBWikiDataset.filepaths`: the `path` column of `self.anno`. -/
def filepaths (d : IMDBWikiDataset) : List String := d.anno.map (·.path)

/-- `IMDBWikiDataset.attributes`: the attribute (`gender`) column of
`self.anno`. -/
def attributes (d : IMDBWikiDataset) : List ℚ := d.anno.map (·.gender)

/-- `IMDBWikiDataset.targets`: the target (`age`) column of `self.anno`
(numpy's `expand_dims(..., 1).astype(float)` wraps each value in a
singleton row; the wrapping is dropped in the model). -/
def targets (d : IMDBWikiDataset) : List ℚ := d.anno.map (·.age)

end IMDBWikiDataset

/-- `np.argwhere(np.isin(xs, keys)).flatten()`: the positions of `xs`
whose value is one of `keys`, in increasing order. -/
def idxsWhere (xs : List ℚ) (keys : List ℚ) : List Nat :=
  (List.range xs.length).filter (fun i => decide (xs.getD i 0 ∈ keys))

namespace IMDBWikiDataset

/-- `IMDBWikiDataset.majority_idxs`. -/
def majority_idxs (d : IMDBWikiDataset) : List Nat :=
  idxsWhere d.attributes majority_group_keys

/-- `IMDBWikiDataset.minority_idxs`. -/
def minority_idxs (d : IMDBWikiDataset) : List Nat :=
  idxsWhere d.attributes minority_group_keys

end IMDBWikiDataset

/-- Python `int(...)` applied to a nonnegative-or-negative rational:
truncation toward zero. -/
def pyInt (q : ℚ) : ℤ := if 0 ≤ q then ⌊q⌋ else -⌊-q⌋

/-- `np.random.choice(population, size=size, replace=False)`: draws `size`
distinct elements of `population`; raises `ValueError` when `size` is
negative or exceeds the population size. The pseudo-random selection
itself is the parameter `pick`; theorems assume of `pick` only what numpy
guarantees (a without-replacement sample of the requested size). -/
def npChoiceNoReplace (pick : List Nat → Nat → List Nat)
    (population : List Nat) (size : ℤ) : Except PyError (List Nat) :=
  if 0 ≤ size ∧ size.toNat ≤ population.length then
    .ok (pick population size.toNat)
  else
    .error .valueError

namespace IMDBWikiDataset

/-- `IMDBWikiDataset.apply_alpha_to_dataset(alpha, n_train)`. Returns the
object state after the call together with the exception raised, if any
(`none` when the call returns normally). Mutation happens at
`self.anno = self.anno.iloc[idx_sample]`; the two sanity-check asserts
run after it, so a failure there leaves the table already subsampled,
while every earlier failure leaves the state untouched. -/
def apply_alpha_to_dataset (d : IMDBWikiDataset)
    (pick : List Nat → Nat → List Nat)
    (alpha : Option ℚ) (n_train : Option Nat) :
    IMDBWikiDataset × Option PyError :=
  match alpha with
  | none => (d, none)
  | some a =>
    -- `if n_train:` — Python falsiness: None or 0 goes to the else branch,
    -- which raises NotImplementedError.
    match n_train with
    | none => (d, some .notImplementedError)
    | some nt =>
      if nt = 0 then (d, some .notImplementedError)
      else if nt ≤ d.majority_idxs.length + d.minority_idxs.length then
        let n_maj : ℤ := pyInt (a * nt)
        let n_min : ℤ := (nt : ℤ) - n_maj
        match npChoiceNoReplace pick d.majority_idxs n_maj with
        | .error e => (d, some e)
        | .ok sample_idx_1 =>
          match npChoiceNoReplace pick d.minority_idxs n_min with
          | .error e => (d, some e)
          | .ok sample_idx_0 =>
            let idx_sample := sample_idx_1 ++ sample_idx_0
            if idx_sample.all (fun i => i < d.anno.length) then
              let d' : IMDBWikiDataset :=
                { d with anno := idx_sample.filterMap d.anno.get? }
              if (d'.anno.length : ℤ) = n_min + n_maj then
                if |(sample_idx_0.length : ℚ) / (d'.anno.length : ℚ) - (1 - a)|
                    < 1 / 1000 then
                  (d', none)
                else (d', some .assertionError)
              else (d', some .assertionError)
            else (d, some .indexError)
      else (d, some .assertionError)

/-- `IMDBWikiDataset.get_attribute_annotations(idxs)`: numpy fancy indexing
`self.attributes[idxs]`; an out-of-range index raises IndexError, caught by
the handler which prints a warning, drops into the debugger and falls off
the end of the function returning `None`. The returned pair is
(return value, object state after the call). -/
def get_attribute_annotations (d : IMDBWikiDataset) (idxs : List Nat) :
    Option (List ℚ) × IMDBWikiDataset :=
  if idxs.all (fun i => i < d.attributes.length) then
    (some (idxs.filterMap d.attributes.get?), d)
  else
    (none, d)

/-- `IMDBWikiDataset.__getitem__(idx)`: the sample triple
`(image, idx, label)`. The image — `self.transform` applied to the PIL
image loaded from `os.path.join(self.root_dir, self.filepaths[idx])` — is
abstracted to that joined file path; the label is
`torch.from_numpy(self.targets[idx]).float()`, i.e. the target-column
value of row `idx`. An out-of-range `idx` raises IndexError (`none`). -/
def getitem (d : IMDBWikiDataset) (idx : Nat) :
    Option (String × Nat × ℚ) :=
  if idx < d.anno.length then
    some (d.root_dir ++ "/" ++ d.filepaths.getD idx "", idx,
          d.targets.getD idx 0)
  else none

end IMDBWikiDataset

/-! ### sklearn train/test split (imdb_wiki.get_anno_df) -/

/-- `TRAIN_TEST_SPLIT_SEED = 948292` in `imdb_wiki.py`. -/
def TRAIN_TEST_SPLIT_SEED : Nat := 948292

/-- sklearn's training-set size for `train_size=0.9`:
`n_train = floor(0.9 * n_samples)`. -/
def sklearnNTrain (n : Nat) : Nat := (⌊(9 : ℚ) / 10 * n⌋).toNat

/-- sklearn's test-set size for `train_size=0.9`, `test_size=None`:
the complement `n - n_train`. -/
def sklearnNTest (n : Nat) : Nat := n - sklearnNTrain n

/-- The test rows' positions: sklearn's ShuffleSplit draws
`permutation = rng.permutation(n)` and takes `permutation[:n_test]`. -/
def testIdxs (perm : List Nat) (n : Nat) : List Nat := perm.take (sklearnNTest n)

/-- The train rows' positions: `permutation[n_test : n_test + n_train]`,
i.e. the rest of the permutation. -/
def trainIdxs (perm : List Nat) (n : Nat) : List Nat := perm.drop (sklearnNTest n)

/-- `sklearn.model_selection.train_test_split(df, train_size=0.9,
random_state=TRAIN_TEST_SPLIT_SEED)`. The pseudo-random permutation — a
pure function of the fixed seed and of `n` in numpy, hence identical
across calls on the same inputs — is the explicit parameter `perm`;
theorems assume of it only that it permutes `range n`. sklearn raises
ValueError when either side of the split would be empty. -/
def train_test_split {α : Type} (perm : List Nat) (rows : List α) :
    Except PyError (List α × List α) :=
  let n := rows.length
  if sklearnNTrain n = 0 ∨ sklearnNTest n = 0 then .error .valueError
  else .ok ((trainIdxs perm n).filterMap rows.get?,
            (testIdxs perm n).filterMap rows.get?)

/-- `imdb_wiki.get_anno_df(root_dir, is_train)`: reads `meta.csv` (the
table, after `replace({"male": 1, "female": 0})`, is the argument
`meta_df`; the file read is abstracted), splits it with
`train_test_split(meta_df, train_size=0.9, random_state=948292)` and
returns the train part when `is_train` else the test part. -/
def imdb_get_anno_df (perm : List Nat) (meta_df : List ImdbRow)
    (is_train : Bool) : Except PyError (List ImdbRow) :=
  match train_test_split perm meta_df with
  | .error e => .error e
  | .ok (train, test) => if is_train then .ok train else .ok test

/-! ### Image-transform pipelines -/

/-- The named steps the two transform constructors compose. -/
inductive TransformStep where
  | resize
  | randomRotation
  | randomCrop
  | randomHorizontalFlip
  | toTensor
  | normalize
  | centerCrop
deriving DecidableEq, Repr

/-- `transform_train` in both `get_transforms` and `get_lfw_transforms`:
`Compose([resize, rotate, random_crop, flip_aug, ToTensor(), normalize])`. -/
def transform_train : List TransformStep :=
  [.resize, .randomRotation, .randomCrop, .randomHorizontalFlip,
   .toTensor, .normalize]

/-- The normalized test pipeline:
`Compose([resize, center_crop, ToTensor(), normalize])`. -/
def transform_test : List TransformStep :=
  [.resize, .centerCrop, .toTensor, .normalize]

/-- `transform_test_unnormalized`:
`Compose([resize, center_crop, ToTensor()])`. -/
def transform_test_unnormalized : List TransformStep :=
  [.resize, .centerCrop, .toTensor]

/-- `imdb_wiki.get_transforms(is_train, normalize)`: train requires
`assert normalize`; test returns the normalized or the unnormalized test
pipeline according to `normalize`. -/
def get_transforms (is_train : Bool) (nrm : Bool) :
    Except PyError (List TransformStep) :=
  if is_train then
    if nrm then .ok transform_train else .error .assertionError
  else if nrm then .ok transform_test
  else .ok transform_test_unnormalized

/-- `lfw_dataset.get_lfw_transforms(partition, normalize)`: keyed by the
partition string; an unknown partition raises ValueError. -/
def get_lfw_transforms (partition : String) (nrm : Bool) :
    Except PyError (List TransformStep) :=
  if partition = "train" then .ok transform_train
  else if partition = "test" then
    if nrm = false then .ok transform_test_unnormalized
    else .ok transform_test
  else .error .valueError

/-! ### LFW annotation table -/

/-- A row of `lfw_attributes_cleaned.txt` as read by `pd.read_csv`:
the `person` name (possibly with spaces), the `imagenum`, and the
numeric attribute columns (`Mouth_Closed`, the target column, ...) as an
association list. -/
structure LfwRawRow where
  person : String
  imagenum : Nat
  cols : List (String × ℚ)
deriving DecidableEq, Repr, Inhabited

/-- Column access `df[colname]` on a raw LFW row. -/
def LfwRawRow.get (r : LfwRawRow) (c : String) : Option ℚ := r.cols.lookup c

/-- An LFW annotation row after `get_anno_df`'s preprocessing: underscored
`person`, the derived `imagenum_str` and `img_basepath` columns, and the
numeric columns now including `Mouth_Open`. -/
structure LfwRow where
  person : String
  imagenum : Nat
  imagenum_str : String
  img_basepath : String
  cols : List (String × ℚ)
deriving DecidableEq, Repr, Inhabited

/-- Column access on a preprocessed LFW row. -/
def LfwRow.get (r : LfwRow) (c : String) : Option ℚ := r.cols.lookup c

/-- `lfw_dataset.apply_thresh(df, colname, thresh, use_abs=True)`: keeps
the rows whose `colname` value (its absolute value when `use_abs`) is at
least `thresh`; `reset_index().drop(columns='index')` renumbers the kept
rows 0..k-1, which the positional list model does by construction.
`colval` is the dataframe's column access. -/
def apply_thresh {α : Type} (colval : α → String → Option ℚ)
    (df : List α) (colname : String) (thresh : ℚ) (use_abs : Bool) :
    List α :=
  if use_abs then
    df.filter (fun r => decide (thresh ≤ |(colval r colname).getD 0|))
  else
    df.filter (fun r => decide (thresh ≤ (colval r colname).getD 0))

/-- Python's `f'{x:04}'`: the decimal digits left-padded with zeros to
width 4. -/
def padZeros4 (n : Nat) : String :=
  let s := toString n
  if s.length < 4 then String.mk (List.replicate (4 - s.length) '0') ++ s
  else s

/-- The row-wise preprocessing of `lfw_dataset.get_anno_df`: the
`imagenum_str` column, underscores for spaces in `person`, the
`img_basepath` column, and `Mouth_Open = 1 - Mouth_Closed` (prepended to
the association list, which is pandas' column overwrite under lookup). -/
def preprocessRow (r : LfwRawRow) : LfwRow :=
  let person := r.person.replace " " "_"
  let numstr := padZeros4 r.imagenum
  { person := person
    imagenum := r.imagenum
    imagenum_str := numstr
    img_basepath := person ++ "/" ++ person ++ "_" ++ numstr ++ ".jpg"
    cols := ("Mouth_Open", 1 - (r.get "Mouth_Closed").getD 0) :: r.cols }

/-- The `if label_threshold:` step of `lfw_dataset.get_anno_df`: Python
falsiness skips the thresholding for `None` and for `0.0`. -/
def lfwThresholded (anno_df : List LfwRawRow) (label_colname : String)
    (label_threshold : Option ℚ) : List LfwRawRow :=
  match label_threshold with
  | none => anno_df
  | some t => if t = 0 then anno_df
              else apply_thresh LfwRawRow.get anno_df label_colname t true

/-- The LFW annotation table after thresholding and row preprocessing,
before the partition subsetting. -/
def lfwProcessedRows (anno_df : List LfwRawRow) (label_colname : String)
    (label_threshold : Option ℚ) : List LfwRow :=
  (lfwThresholded anno_df label_colname label_threshold).map preprocessRow

/-- `lfw_dataset.get_anno_df(root_dir, partition, label_colname,
label_threshold)`. The file reads are abstracted: `anno_df` is the table
read from `lfw_attributes_cleaned.txt`, and `trainPeople` / `testPeople`
are the person names of `peopleDevTrain.txt` / `peopleDevTest.txt` (in
`pd.read_csv(fp, delimiter="\t")` the leading count line becomes the
header and each `name<TAB>count` data row puts the name in the index, so
`partition_ids.index` is exactly the list of person names). A partition
other than `'train'`/`'test'` raises ValueError; otherwise the rows whose
`person` is in the partition file are kept, renumbered 0..k-1. -/
def lfw_get_anno_df (anno_df : List LfwRawRow)
    (trainPeople testPeople : List String) (partition : String)
    (label_colname : String) (label_threshold : Option ℚ) :
    Except PyError (List LfwRow) :=
  let rows := lfwProcessedRows anno_df label_colname label_threshold
  if partition = "train" then
    .ok (rows.filter (fun r => decide (r.person ∈ trainPeople)))
  else if partition = "test" then
    .ok (rows.filter (fun r => decide (r.person ∈ testPeople)))
  else .error .valueError

/-- The `LFWDataset` object state relevant to the modelled methods. -/
structure LFWDataset where
  root_dir : String
  image_subdirectory : String
  anno : List LfwRow
  target_colname : String
  attribute_colname : String
  threshold : ℚ
deriving DecidableEq, Repr

namespace LFWDataset

/-- `LFWDataset.__len__`: `len(self.anno)`. -/
def len (d : LFWDataset) : Nat := d.anno.length

/-- `LFWDataset.__getitem__(idx)`: the sample triple `(image, idx, label)`.
The image — `self.transform` applied to the image loaded from
`os.path.join(self.root_dir, self.image_subdirectory,
self.anno['img_basepath'].iloc[idx])` — is abstracted to that joined
path. The label is the hard cast `(soft_labels > 0).astype(int)` of the
target-column value of row `idx`. An out-of-range `idx` raises
IndexError (`none`). -/
def getitem (d : LFWDataset) (idx : Nat) : Option (String × Nat × ℤ) :=
  if idx < d.anno.length then
    let r := d.anno.getD idx default
    some (d.root_dir ++ "/" ++ d.image_subdirectory ++ "/" ++ r.img_basepath,
          idx,
          if 0 < (r.get d.target_colname).getD 0 then 1 else 0)
  else none

end LFWDataset

/-! ### Concrete instances used to settle the claims on explicit inputs -/

/-- A two-row IMDB-Wiki table: one majority (gender 1) and one minority
(gender 0) row. -/
def imdbExample : IMDBWikiDataset :=
  ⟨"root", [⟨"img0.jpg", 1, 25⟩, ⟨"img1.jpg", 0, 30⟩]⟩

/-- A balanced six-row IMDB-Wiki table: three majority then three
minority rows. -/
def imdbBalanced : IMDBWikiDataset :=
  ⟨"root", [⟨"m0.jpg", 1, 20⟩, ⟨"m1.jpg", 1, 21⟩, ⟨"m2.jpg", 1, 22⟩,
            ⟨"f0.jpg", 0, 23⟩, ⟨"f1.jpg", 0, 24⟩, ⟨"f2.jpg", 0, 25⟩]⟩

/-- A twelve-row IMDB-Wiki table: six majority then six minority rows. -/
def imdbTwelve : IMDBWikiDataset :=
  ⟨"root", [⟨"m0.jpg", 1, 20⟩, ⟨"m1.jpg", 1, 21⟩, ⟨"m2.jpg", 1, 22⟩,
            ⟨"m3.jpg", 1, 23⟩, ⟨"m4.jpg", 1, 24⟩, ⟨"m5.jpg", 1, 25⟩,
            ⟨"f0.jpg", 0, 30⟩, ⟨"f1.jpg", 0, 31⟩, ⟨"f2.jpg", 0, 32⟩,
            ⟨"f3.jpg", 0, 33⟩, ⟨"f4.jpg", 0, 34⟩, ⟨"f5.jpg", 0, 35⟩]⟩

/-- The deterministic head-of-list sampler standing in for numpy's
pseudo-random draw in concrete instantiations: it is a
without-replacement sample whenever the population has no duplicates. -/
def takePick : List Nat → Nat → List Nat := fun pop n => pop.take n

/-- An eleven-row table for the split-size computation. -/
def elevenRows : List ImdbRow := List.replicate 11 default

/-- A three-row table for the split witness. -/
def threeRows : List ImdbRow := List.replicate 3 default

/-- A preprocessed one-image LFW row whose `attr` column is positive. -/
def lfwExampleRow : LfwRow :=
  ⟨"Aaron_P", 1, "0001", "Aaron_P/Aaron_P_0001.jpg", [("attr", 1)]⟩

/-- A one-row LFW dataset targeting the `attr` column. -/
def lfwExample : LFWDataset :=
  ⟨"root", "lfw-deepfunneled", [lfwExampleRow], "attr", "attr", 1⟩

/-- A raw LFW row with an `x` column and a `Mouth_Closed` column. -/
def lfwRawExample : LfwRawRow := ⟨"Aaron P", 1, [("x", 2), ("Mouth_Closed", 1)]⟩

/-! ### Helper lemmas -/

theorem mem_idxsWhere {xs keys : List ℚ} {i : Nat} :
    i ∈ idxsWhere xs keys ↔ i < xs.length ∧ xs.getD i 0 ∈ keys := by
  simp [idxsWhere, List.mem_filter, List.mem_range]

theorem filterMap_get?_eq_map {α : Type} [Inhabited α] (xs : List α)
    (l : List Nat) (h : ∀ i ∈ l, i < xs.length) :
    l.filterMap xs.get? = l.map (fun i => xs.getD i default) := by
  induction l with
  | nil => rfl
  | cons a t ih =>
    have ha : a < xs.length := h a (by simp)
    have ht : ∀ i ∈ t, i < xs.length := fun i hi => h i (by simp [hi])
    simp only [List.filterMap_cons, List.map_cons, ih ht]
    rw [List.get?_eq_getElem?, List.getElem?_eq_getElem ha,
      List.getD_eq_getElem _ _ ha]

theorem filterMap_get?_length {α : Type} [Inhabited α] (xs : List α)
    (l : List Nat) (h : ∀ i ∈ l, i < xs.length) :
    (l.filterMap xs.get?).length = l.length := by
  rw [filterMap_get?_eq_map xs l h, List.length_map]

theorem map_getD_range {α : Type} [Inhabited α] (xs : List α) :
    (List.range xs.length).map (fun i => xs.getD i default) = xs := by
  apply List.ext_get
  · simp
  · intro n h1 h2
    simp [List.getD_eq_getElem, List.getElem?_eq_getElem h2]

theorem range_filterMap_get? {α : Type} [Inhabited α] (xs : List α) :
    (List.range xs.length).filterMap xs.get? = xs := by
  rw [filterMap_get?_eq_map xs _ (fun i hi => List.mem_range.mp hi),
    map_getD_range]

theorem sklearnNTrain_eq (n : Nat) : sklearnNTrain n = 9 * n / 10 := by
  unfold sklearnNTrain
  have h : (9 : ℚ) / 10 * n = (((9 * n : ℕ) : ℤ) : ℚ) / ((10 : ℕ) : ℚ) := by
    push_cast; ring
  rw [h, Rat.floor_intCast_div_natCast, ← Int.natCast_div, Int.toNat_natCast]

theorem pyInt_eq_floor {q : ℚ} (h : 0 ≤ q) : pyInt q = ⌊q⌋ := if_pos h

theorem pyInt_mul_cast_nonneg {a : ℚ} (n : ℕ) (h0 : 0 ≤ a) :
    0 ≤ pyInt (a * n) := by
  have hq : (0 : ℚ) ≤ a * n := mul_nonneg h0 (Nat.cast_nonneg n)
  rw [pyInt_eq_floor hq]
  exact Int.floor_nonneg.mpr hq

theorem pyInt_mul_cast_le {a : ℚ} (n : ℕ) (h0 : 0 ≤ a) (h1 : a ≤ 1) :
    (pyInt (a * n)).toNat ≤ n := by
  have hq : (0 : ℚ) ≤ a * n := mul_nonneg h0 (Nat.cast_nonneg n)
  rw [pyInt_eq_floor hq, Int.toNat_le]
  calc ⌊a * (n : ℚ)⌋ ≤ ⌊((n : ℚ))⌋ :=
        Int.floor_le_floor (by nlinarith [Nat.cast_nonneg (α := ℚ) n])
    _ = (n : ℤ) := Int.floor_natCast n

theorem gender_of_mem_filterMap {d : IMDBWikiDataset} {keys : List ℚ}
    {l : List Nat} (hsub : ∀ x ∈ l, x ∈ idxsWhere d.attributes keys) :
    ∀ r ∈ l.filterMap d.anno.get?, r.gender ∈ keys := by
  intro r hr
  obtain ⟨i, hi, hget⟩ := List.mem_filterMap.mp hr
  obtain ⟨hilt, hkey⟩ := mem_idxsWhere.mp (hsub i hi)
  have hlen : i < d.anno.length := by
    simpa [IMDBWikiDataset.attributes] using hilt
  have hgetE : d.anno[i] = r := by
    rw [List.get?_eq_getElem?, List.getElem?_eq_getElem hlen] at hget
    exact Option.some_injective _ hget
  have : d.attributes.getD i 0 = r.gender := by
    simp [IMDBWikiDataset.attributes, List.getD_eq_getElem, hlen, hgetE]
  rwa [this] at hkey

theorem lt_length_of_mem_idxsWhere {d : IMDBWikiDataset} {keys : List ℚ}
    {i : Nat} (h : i ∈ idxsWhere d.attributes keys) : i < d.anno.length := by
  have := (mem_idxsWhere.mp h).1
  simpa [IMDBWikiDataset.attributes] using this

theorem getD_map {α β : Type} [Inhabited α] (f : α → β) (l : List α)
    (i : Nat) (b : β) (h : i < l.length) :
    (l.map f).getD i b = f (l.getD i default) := by
  rw [List.getD_eq_getElem _ _ (by simpa using h), List.getD_eq_getElem _ _ h,
    List.getElem_map]

theorem train_test_split_eq {α : Type} (perm : List Nat) (rows : List α)
    (htr : ¬ (sklearnNTrain rows.length = 0))
    (hte : ¬ (sklearnNTest rows.length = 0)) :
    train_test_split perm rows =
      .ok ((trainIdxs perm rows.length).filterMap rows.get?,
           (testIdxs perm rows.length).filterMap rows.get?) := by
  simp only [train_test_split]
  rw [if_neg (not_or.mpr ⟨htr, hte⟩)]

/-! ### Claim theorems -/

/-- C4: `get_transforms` (IMDB-Wiki) and `get_lfw_transforms` (LFW) build
their pipelines from the fixed named steps selected by the train/test
flag: the train pipeline is [resize, random rotation, random crop,
random horizontal flip, to-tensor, normalize]; the test pipeline is
[resize, center crop, to-tensor] followed by normalize exactly when the
normalize flag is true. -/
theorem transforms_pipelines :
    get_transforms true true = .ok [TransformStep.resize, .randomRotation,
        .randomCrop, .randomHorizontalFlip, .toTensor, .normalize] ∧
    (∀ nz : Bool, get_transforms false nz =
        .ok ([TransformStep.resize, .centerCrop, .toTensor] ++
          if nz then [TransformStep.normalize] else [])) ∧
    (∀ nz : Bool, get_lfw_transforms "train" nz =
        .ok [TransformStep.resize, .randomRotation, .randomCrop,
          .randomHorizontalFlip, .toTensor, .normalize]) ∧
    (∀ nz : Bool, get_lfw_transforms "test" nz =
        .ok ([TransformStep.resize, .centerCrop, .toTensor] ++
          if nz then [TransformStep.normalize] else [])) := by
  refine ⟨rfl, ?_, ?_, ?_⟩ <;> intro nz <;> cases nz <;> rfl

/-- C5: `apply_thresh(df, colname, t, use_abs)` keeps exactly the rows
whose column value `v` satisfies `|v| ≥ t` when `use_abs` and `v ≥ t`
otherwise, in the original order (the result is a sublist of `df`), and
renumbers the kept rows 0..k-1 (the positional list model). -/
theorem apply_thresh_spec {α : Type} (colval : α → String → Option ℚ)
    (df : List α) (colname : String) (t : ℚ) (use_abs : Bool)
    (hcol : ∀ r ∈ df, (colval r colname).isSome) :
    (apply_thresh colval df colname t use_abs).Sublist df ∧
    (∀ r, r ∈ apply_thresh colval df colname t use_abs ↔
        r ∈ df ∧ (if use_abs then t ≤ |(colval r colname).getD 0|
                  else t ≤ (colval r colname).getD 0)) := by
  unfold apply_thresh
  cases use_abs <;> simp [List.filter_sublist, List.mem_filter]

/-- Witness for C5 at a concrete one-row dataframe: the `x` column holds
2, the threshold is 2, and the row is kept. -/
theorem apply_thresh_spec_witness :
    (∀ r ∈ [lfwRawExample], (LfwRawRow.get r "x").isSome) ∧
    ((apply_thresh LfwRawRow.get [lfwRawExample] "x" 2 true).Sublist
        [lfwRawExample] ∧
     (∀ r, r ∈ apply_thresh LfwRawRow.get [lfwRawExample] "x" 2 true ↔
        r ∈ [lfwRawExample] ∧
          (if true then (2:ℚ) ≤ |(LfwRawRow.get r "x").getD 0|
           else (2:ℚ) ≤ (LfwRawRow.get r "x").getD 0))) :=
  ⟨by decide, apply_thresh_spec LfwRawRow.get [lfwRawExample] "x" 2 true
    (by decide)⟩

/-- C2: for every annotation table and both partitions, the LFW
`get_anno_df` keeps exactly the (preprocessed) annotation rows whose
person is listed in the corresponding partition membership file
(`peopleDevTrain.txt` for `'train'`, `peopleDevTest.txt` for `'test'`). -/
theorem lfw_partition_selects_listed_people (anno_df : List LfwRawRow)
    (trainPeople testPeople : List String) (label_colname : String)
    (label_threshold : Option ℚ) :
    (lfw_get_anno_df anno_df trainPeople testPeople "train" label_colname
        label_threshold =
      .ok ((lfwProcessedRows anno_df label_colname label_threshold).filter
        (fun r => decide (r.person ∈ trainPeople)))) ∧
    (lfw_get_anno_df anno_df trainPeople testPeople "test" label_colname
        label_threshold =
      .ok ((lfwProcessedRows anno_df label_colname label_threshold).filter
        (fun r => decide (r.person ∈ testPeople)))) ∧
    (∀ r, r ∈ (lfwProcessedRows anno_df label_colname
          label_threshold).filter (fun r => decide (r.person ∈ trainPeople)) ↔
        r ∈ lfwProcessedRows anno_df label_colname label_threshold ∧
          r.person ∈ trainPeople) ∧
    (∀ r, r ∈ (lfwProcessedRows anno_df label_colname
          label_threshold).filter (fun r => decide (r.person ∈ testPeople)) ↔
        r ∈ lfwProcessedRows anno_df label_colname label_threshold ∧
          r.person ∈ testPeople) := by
  refine ⟨rfl, rfl, ?_, ?_⟩ <;> intro r <;> simp [List.mem_filter]

/-- C7: `get_attribute_annotations(idxs)` returns the attribute-column
values at the given indices; when the numpy lookup raises, the handler
prints, drops into the debugger and falls through returning `None`; in
both cases the dataset state is unchanged. -/
theorem get_attribute_annotations_spec (d : IMDBWikiDataset)
    (idxs : List Nat) :
    ((∀ i ∈ idxs, i < d.attributes.length) →
      d.get_attribute_annotations idxs =
        (some (idxs.map (fun i => d.attributes.getD i 0)), d)) ∧
    ((¬ ∀ i ∈ idxs, i < d.attributes.length) →
      d.get_attribute_annotations idxs = (none, d)) ∧
    (d.get_attribute_annotations idxs).2 = d := by
  unfold IMDBWikiDataset.get_attribute_annotations
  by_cases h : ∀ i ∈ idxs, i < d.attributes.length
  · have hall : idxs.all (fun i => decide (i < d.attributes.length)) = true := by
      simpa [List.all_eq_true] using h
    refine ⟨fun _ => ?_, fun hc => absurd h hc, ?_⟩
    · rw [if_pos hall, filterMap_get?_eq_map _ _ h]
      simp
      intro a _
      rfl
    · rw [if_pos hall]
  · have hall : ¬ (idxs.all (fun i => decide (i < d.attributes.length)) = true) := by
      simpa [List.all_eq_true] using h
    refine ⟨fun hc => absurd hc h, fun _ => ?_, ?_⟩
    · rw [if_neg hall]
    · rw [if_neg hall]

/-- C8: calling `apply_alpha_to_dataset` with `alpha = None` is a no-op
for every `n_train`: no exception is raised and the annotation table —
hence `__len__`, `filepaths`, `attributes`, `targets`, `majority_idxs`
and `minority_idxs` — is identical before and after the call. -/
theorem apply_alpha_none_noop (d : IMDBWikiDataset)
    (pick : List Nat → Nat → List Nat) (n_train : Option Nat) :
    d.apply_alpha_to_dataset pick none n_train = (d, none) ∧
    (d.apply_alpha_to_dataset pick none n_train).1.anno = d.anno ∧
    (d.apply_alpha_to_dataset pick none n_train).1.len = d.len ∧
    (d.apply_alpha_to_dataset pick none n_train).1.filepaths = d.filepaths ∧
    (d.apply_alpha_to_dataset pick none n_train).1.attributes =
      d.attributes ∧
    (d.apply_alpha_to_dataset pick none n_train).1.targets = d.targets ∧
    (d.apply_alpha_to_dataset pick none n_train).1.majority_idxs =
      d.majority_idxs ∧
    (d.apply_alpha_to_dataset pick none n_train).1.minority_idxs =
      d.minority_idxs :=
  ⟨rfl, rfl, rfl, rfl, rfl, rfl, rfl, rfl⟩

/-- C9: with `alpha` given and a falsy `n_train` (`None` or `0`),
`apply_alpha_to_dataset` raises NotImplementedError; with `n_train`
larger than the majority plus minority count it fails the sanity-check
assert; in all three error cases the annotation table is unchanged. -/
theorem apply_alpha_error_cases (d : IMDBWikiDataset)
    (pick : List Nat → Nat → List Nat) (a : ℚ) (nt : Nat)
    (hnt : d.majority_idxs.length + d.minority_idxs.length < nt) :
    d.apply_alpha_to_dataset pick (some a) none =
      (d, some .notImplementedError) ∧
    d.apply_alpha_to_dataset pick (some a) (some 0) =
      (d, some .notImplementedError) ∧
    d.apply_alpha_to_dataset pick (some a) (some nt) =
      (d, some .assertionError) := by
  refine ⟨rfl, ?_, ?_⟩
  · simp [IMDBWikiDataset.apply_alpha_to_dataset]
  · have h0 : ¬ (nt = 0) := by omega
    have hle : ¬ (nt ≤ d.majority_idxs.length + d.minority_idxs.length) := by
      omega
    simp only [IMDBWikiDataset.apply_alpha_to_dataset]
    rw [if_neg h0, if_neg hle]

/-- Witness for C9 at the two-row table: 1 majority + 1 minority < 3. -/
theorem apply_alpha_error_cases_witness :
    imdbExample.majority_idxs.length + imdbExample.minority_idxs.length
      < 3 ∧
    (imdbExample.apply_alpha_to_dataset takePick (some 1) none =
      (imdbExample, some .notImplementedError) ∧
     imdbExample.apply_alpha_to_dataset takePick (some 1) (some 0) =
      (imdbExample, some .notImplementedError) ∧
     imdbExample.apply_alpha_to_dataset takePick (some 1) (some 3) =
      (imdbExample, some .assertionError)) :=
  ⟨by decide, apply_alpha_error_cases imdbExample takePick 1 3 (by decide)⟩

/-- C6: for both dataset variants `__len__` is the number of rows of the
in-memory annotation table, and `__getitem__(idx)` at a valid `idx` is a
triple `(image, idx, label)` whose label is derived from the target
column of annotation row `idx` (the raw target value for IMDB-Wiki, its
hard binarization for LFW). -/
theorem len_and_getitem (d1 : IMDBWikiDataset) (d2 : LFWDataset)
    (i j : Nat) (h1 : i < d1.len) (h2 : j < d2.len) :
    d1.len = d1.anno.length ∧ d2.len = d2.anno.length ∧
    d1.getitem i =
      some (d1.root_dir ++ "/" ++ (d1.anno.getD i default).path, i,
        (d1.anno.getD i default).age) ∧
    d2.getitem j =
      some (d2.root_dir ++ "/" ++ d2.image_subdirectory ++ "/" ++
        (d2.anno.getD j default).img_basepath, j,
        if 0 < ((d2.anno.getD j default).get d2.target_colname).getD 0
        then 1 else 0) := by
  have h1' : i < d1.anno.length := h1
  have h2' : j < d2.anno.length := h2
  refine ⟨rfl, rfl, ?_, ?_⟩
  · unfold IMDBWikiDataset.getitem
    rw [if_pos h1']
    rw [show d1.filepaths.getD i "" = (d1.anno.getD i default).path from
      getD_map _ _ _ _ h1']
    rw [show d1.targets.getD i 0 = (d1.anno.getD i default).age from
      getD_map _ _ _ _ h1']
  · unfold LFWDataset.getitem
    rw [if_pos h2']

/-- Witness for C6 at the concrete two-row IMDB table and one-row LFW
dataset, both at index 0. -/
theorem len_and_getitem_witness :
    0 < imdbExample.len ∧ 0 < lfwExample.len ∧
    (imdbExample.len = imdbExample.anno.length ∧
     lfwExample.len = lfwExample.anno.length ∧
     imdbExample.getitem 0 =
      some (imdbExample.root_dir ++ "/" ++
        (imdbExample.anno.getD 0 default).path, 0,
        (imdbExample.anno.getD 0 default).age) ∧
     lfwExample.getitem 0 =
      some (lfwExample.root_dir ++ "/" ++ lfwExample.image_subdirectory ++
        "/" ++ (lfwExample.anno.getD 0 default).img_basepath, 0,
        if 0 < ((lfwExample.anno.getD 0 default).get
            lfwExample.target_colname).getD 0
        then 1 else 0)) :=
  ⟨by decide, by decide,
   len_and_getitem imdbExample lfwExample 0 0 (by decide) (by decide)⟩

/-- C10: the label returned by `LFWDataset.__getitem__` is the hard
binarization of the soft target value — 1 exactly when it is strictly
positive, 0 otherwise — independently of the `label_threshold` the
dataset was constructed with (`__getitem__` never reads
`self.threshold`). -/
theorem lfw_hard_label (d : LFWDataset) (t : ℚ) (idx : Nat)
    (h : idx < d.len) :
    ({ d with threshold := t } : LFWDataset).getitem idx = d.getitem idx ∧
    d.getitem idx =
      some (d.root_dir ++ "/" ++ d.image_subdirectory ++ "/" ++
        (d.anno.getD idx default).img_basepath, idx,
        if 0 < ((d.anno.getD idx default).get d.target_colname).getD 0
        then 1 else 0) ∧
    (0 < ((d.anno.getD idx default).get d.target_colname).getD 0 →
      d.getitem idx =
        some (d.root_dir ++ "/" ++ d.image_subdirectory ++ "/" ++
          (d.anno.getD idx default).img_basepath, idx, 1)) ∧
    (¬ 0 < ((d.anno.getD idx default).get d.target_colname).getD 0 →
      d.getitem idx =
        some (d.root_dir ++ "/" ++ d.image_subdirectory ++ "/" ++
          (d.anno.getD idx default).img_basepath, idx, 0)) := by
  have hbody : d.getitem idx =
      some (d.root_dir ++ "/" ++ d.image_subdirectory ++ "/" ++
        (d.anno.getD idx default).img_basepath, idx,
        if 0 < ((d.anno.getD idx default).get d.target_colname).getD 0
        then 1 else 0) := by
    have h' : idx < d.anno.length := h
    unfold LFWDataset.getitem
    rw [if_pos h']
  refine ⟨rfl, hbody, fun hpos => ?_, fun hneg => ?_⟩
  · rw [hbody, if_pos hpos]
  · rw [hbody, if_neg hneg]

/-- Witness for C10 at the one-row LFW dataset (soft value 1 > 0, label
1), with the threshold overridden to 7. -/
theorem lfw_hard_label_witness :
    0 < lfwExample.len ∧
    (({ lfwExample with threshold := 7 } : LFWDataset).getitem 0 =
        lfwExample.getitem 0 ∧
     lfwExample.getitem 0 =
      some (lfwExample.root_dir ++ "/" ++ lfwExample.image_subdirectory ++
        "/" ++ (lfwExample.anno.getD 0 default).img_basepath, 0,
        if 0 < ((lfwExample.anno.getD 0 default).get
            lfwExample.target_colname).getD 0
        then 1 else 0) ∧
     (0 < ((lfwExample.anno.getD 0 default).get
          lfwExample.target_colname).getD 0 →
       lfwExample.getitem 0 =
        some (lfwExample.root_dir ++ "/" ++ lfwExample.image_subdirectory ++
          "/" ++ (lfwExample.anno.getD 0 default).img_basepath, 0, 1)) ∧
     (¬ 0 < ((lfwExample.anno.getD 0 default).get
          lfwExample.target_colname).getD 0 →
       lfwExample.getitem 0 =
        some (lfwExample.root_dir ++ "/" ++ lfwExample.image_subdirectory ++
          "/" ++ (lfwExample.anno.getD 0 default).img_basepath, 0, 0))) :=
  ⟨by decide, lfw_hard_label lfwExample 7 0 (by decide)⟩

/-- C3 (amended): the IMDB-Wiki `get_anno_df` splits the table through
`train_test_split(train_size=0.9, random_state=948292)`: for every table
with at least two rows and every permutation of the row positions (the
permutation numpy derives deterministically from the fixed seed), the
call returns the train part for `is_train` and the test part otherwise,
the two parts are drawn from disjoint position sets whose union covers
the table (the concatenation is a permutation of the whole table), the
train part holds `floor(0.9 · n)` rows — the exact 0.9 fraction only when
`n` is a multiple of 10 — and the split is a pure function of its inputs,
hence identical across calls. -/
theorem imdb_split_spec (perm : List Nat) (meta_df : List ImdbRow)
    (hperm : perm.Perm (List.range meta_df.length))
    (h2 : 2 ≤ meta_df.length) :
    imdb_get_anno_df perm meta_df true =
      .ok ((trainIdxs perm meta_df.length).filterMap meta_df.get?) ∧
    imdb_get_anno_df perm meta_df false =
      .ok ((testIdxs perm meta_df.length).filterMap meta_df.get?) ∧
    List.Disjoint (trainIdxs perm meta_df.length)
      (testIdxs perm meta_df.length) ∧
    ((trainIdxs perm meta_df.length).filterMap meta_df.get? ++
      (testIdxs perm meta_df.length).filterMap meta_df.get?).Perm
      meta_df ∧
    ((trainIdxs perm meta_df.length).filterMap meta_df.get?).length =
      sklearnNTrain meta_df.length ∧
    imdb_get_anno_df perm meta_df = imdb_get_anno_df perm meta_df := by
  have htr : ¬ (sklearnNTrain meta_df.length = 0) := by
    rw [sklearnNTrain_eq]; omega
  have hte : ¬ (sklearnNTest meta_df.length = 0) := by
    rw [sklearnNTest, sklearnNTrain_eq]; omega
  have hnodup : perm.Nodup :=
    hperm.nodup_iff.mpr (List.nodup_range _)
  have hlenp : perm.length = meta_df.length := by
    simpa using hperm.length_eq
  have hmem : ∀ i ∈ perm, i < meta_df.length := fun i hi =>
    List.mem_range.mp (hperm.mem_iff.mp hi)
  have hmemtr : ∀ i ∈ trainIdxs perm meta_df.length, i < meta_df.length :=
    fun i hi => hmem i (List.mem_of_mem_drop hi)
  have hsplit := train_test_split_eq perm meta_df htr hte
  refine ⟨?_, ?_, ?_, ?_, ?_, rfl⟩
  · unfold imdb_get_anno_df
    rw [hsplit]
    rfl
  · unfold imdb_get_anno_df
    rw [hsplit]
    rfl
  · exact (List.disjoint_take_drop hnodup (le_refl _)).symm
  · have h1 : (trainIdxs perm meta_df.length ++
        testIdxs perm meta_df.length).Perm perm :=
      List.perm_append_comm.trans
        (List.Perm.of_eq (List.take_append_drop _ _))
    have h3 := (h1.trans hperm).filterMap meta_df.get?
    rw [List.filterMap_append, range_filterMap_get?] at h3
    exact h3
  · rw [filterMap_get?_length _ _ hmemtr, trainIdxs, List.length_drop,
      hlenp, sklearnNTest]
    have : sklearnNTrain meta_df.length ≤ meta_df.length := by
      rw [sklearnNTrain_eq]; omega
    omega

/-- Witness for C3 at a three-row table with the identity permutation:
the train part holds floor(0.9·3) = 2 rows, the test part 1. -/
theorem imdb_split_spec_witness :
    (List.range 3).Perm (List.range threeRows.length) ∧
    2 ≤ threeRows.length ∧
    (imdb_get_anno_df (List.range 3) threeRows true =
      .ok ((trainIdxs (List.range 3) threeRows.length).filterMap
        threeRows.get?) ∧
     imdb_get_anno_df (List.range 3) threeRows false =
      .ok ((testIdxs (List.range 3) threeRows.length).filterMap
        threeRows.get?) ∧
     List.Disjoint (trainIdxs (List.range 3) threeRows.length)
      (testIdxs (List.range 3) threeRows.length) ∧
     ((trainIdxs (List.range 3) threeRows.length).filterMap
        threeRows.get? ++
      (testIdxs (List.range 3) threeRows.length).filterMap
        threeRows.get?).Perm threeRows ∧
     ((trainIdxs (List.range 3) threeRows.length).filterMap
        threeRows.get?).length = sklearnNTrain threeRows.length ∧
     imdb_get_anno_df (List.range 3) threeRows =
      imdb_get_anno_df (List.range 3) threeRows) :=
  ⟨List.Perm.refl _, by decide,
   imdb_split_spec (List.range 3) threeRows (List.Perm.refl _) (by decide)⟩

/-- C3 counterexample: on an 11-row table the train part returned by the
IMDB-Wiki `get_anno_df` has floor(0.9·11) = 9 rows, and 9 is not the
fraction 0.9 of the 11 rows. -/
theorem imdb_split_ratio_cex :
    Except.map List.length
      (imdb_get_anno_df (List.range 11) elevenRows true) = .ok 9 ∧
    ((9 : ℚ) ≠ 9 / 10 * 11) := by
  constructor
  · have h9 : sklearnNTrain elevenRows.length = 9 := by
      rw [show elevenRows.length = 11 from rfl, sklearnNTrain_eq]
    have hte2 : sklearnNTest elevenRows.length = 2 := by
      rw [sklearnNTest, h9]
      rfl
    have hsp := train_test_split_eq (List.range 11) elevenRows
      (by rw [h9]; decide) (by rw [hte2]; decide)
    unfold imdb_get_anno_df
    rw [hsp, trainIdxs, hte2]
    rfl
  · norm_num

/-- C1 (amended): for `alpha ∈ [0,1]` and positive `n_train`, provided
`int(alpha·n_train)` fits the majority group and the remainder fits the
minority group (numpy's without-replacement draw requires each
group-level sample to fit its group, which the method's own assert does
not check), and the rounding error `(n_train − int(alpha·n_train)) −
(1−alpha)·n_train` is below `n_train/1000` (the final sanity check),
`apply_alpha_to_dataset` returns normally and the annotation table
afterwards holds exactly `n_train` rows: `int(alpha·n_train)` drawn
without replacement from the majority group followed by the remaining
rows drawn from the minority group, and the minority fraction of the
resulting table is within 0.001 of `1−alpha`. The numpy draw is the
parameter `pick`, assumed to return a without-replacement sample. -/
theorem apply_alpha_spec (d : IMDBWikiDataset)
    (pick : List Nat → Nat → List Nat) (a : ℚ) (nt nmaj : Nat)
    (h0 : 0 ≤ a) (h1 : a ≤ 1) (hnt : 0 < nt)
    (hdef : pyInt (a * nt) = (nmaj : ℤ))
    (hmaj : nmaj ≤ d.majority_idxs.length)
    (hmin : nt - nmaj ≤ d.minority_idxs.length)
    (hp1len : (pick d.majority_idxs nmaj).length = nmaj)
    (hp1nd : (pick d.majority_idxs nmaj).Nodup)
    (hp1sub : ∀ x ∈ pick d.majority_idxs nmaj, x ∈ d.majority_idxs)
    (hp2len : (pick d.minority_idxs (nt - nmaj)).length = nt - nmaj)
    (hp2nd : (pick d.minority_idxs (nt - nmaj)).Nodup)
    (hp2sub : ∀ x ∈ pick d.minority_idxs (nt - nmaj),
      x ∈ d.minority_idxs)
    (hround : 1000 * |((nt - nmaj : ℕ) : ℚ) - (1 - a) * nt| < (nt : ℚ)) :
    (d.apply_alpha_to_dataset pick (some a) (some nt)).2 = none ∧
    (d.apply_alpha_to_dataset pick (some a) (some nt)).1.anno =
      (pick d.majority_idxs nmaj).filterMap d.anno.get? ++
      (pick d.minority_idxs (nt - nmaj)).filterMap d.anno.get? ∧
    (d.apply_alpha_to_dataset pick (some a) (some nt)).1.len = nt ∧
    (d.apply_alpha_to_dataset pick (some a) (some nt)).1.anno.countP
      (fun r => decide (r.gender ∈ minority_group_keys)) = nt - nmaj ∧
    |((nt - nmaj : ℕ) : ℚ) / (nt : ℚ) - (1 - a)| < 1 / 1000 := by
  have hmajle : nmaj ≤ nt := by
    have h := pyInt_mul_cast_le nt h0 h1
    rw [hdef] at h
    simpa using h
  have hnmin_int : (nt : ℤ) - pyInt (a * nt) = ((nt - nmaj : ℕ) : ℤ) := by
    rw [hdef]; omega
  have hin1 : ∀ i ∈ pick d.majority_idxs nmaj, i < d.anno.length :=
    fun i hi => lt_length_of_mem_idxsWhere (hp1sub i hi)
  have hin2 : ∀ i ∈ pick d.minority_idxs (nt - nmaj), i < d.anno.length :=
    fun i hi => lt_length_of_mem_idxsWhere (hp2sub i hi)
  have hall : ((pick d.majority_idxs nmaj ++
      pick d.minority_idxs (nt - nmaj)).all
        (fun i => decide (i < d.anno.length))) = true := by
    rw [List.all_eq_true]
    intro i hi
    rcases List.mem_append.mp hi with h | h
    · simpa using hin1 i h
    · simpa using hin2 i h
  have hlen12 : ((pick d.majority_idxs nmaj ++
      pick d.minority_idxs (nt - nmaj)).filterMap d.anno.get?).length
        = nt := by
    rw [List.filterMap_append, List.length_append,
      filterMap_get?_length _ _ hin1, filterMap_get?_length _ _ hin2,
      hp1len, hp2len]
    omega
  have hntQ : (0 : ℚ) < nt := by exact_mod_cast hnt
  have hfrac : |((nt - nmaj : ℕ) : ℚ) / (nt : ℚ) - (1 - a)| < 1 / 1000 := by
    have heq : ((nt - nmaj : ℕ) : ℚ) / (nt : ℚ) - (1 - a)
        = (((nt - nmaj : ℕ) : ℚ) - (1 - a) * nt) / nt := by
      field_simp
      ring
    rw [heq, abs_div, abs_of_pos hntQ, div_lt_iff hntQ]
    linarith [hround]
  have hne0 : ¬ (nt = 0) := Nat.pos_iff_ne_zero.mp hnt
  have hle : nt ≤ d.majority_idxs.length + d.minority_idxs.length := by
    omega
  have hc1 : npChoiceNoReplace pick d.majority_idxs (pyInt (a * nt)) =
      .ok (pick d.majority_idxs nmaj) := by
    unfold npChoiceNoReplace
    rw [hdef, if_pos ⟨Int.natCast_nonneg nmaj, by simpa using hmaj⟩]
    simp
  have hc2 : npChoiceNoReplace pick d.minority_idxs
      ((nt : ℤ) - pyInt (a * nt)) =
      .ok (pick d.minority_idxs (nt - nmaj)) := by
    unfold npChoiceNoReplace
    rw [hnmin_int, if_pos ⟨Int.natCast_nonneg _, by simpa using hmin⟩]
    simp
  have key : d.apply_alpha_to_dataset pick (some a) (some nt) =
      ({ d with anno := (pick d.majority_idxs nmaj).filterMap d.anno.get?
          ++ (pick d.minority_idxs (nt - nmaj)).filterMap d.anno.get? },
       none) := by
    have hlen12' : ((pick d.majority_idxs nmaj).filterMap d.anno.get? ++
        (pick d.minority_idxs (nt - nmaj)).filterMap
          d.anno.get?).length = nt := by
      rw [← List.filterMap_append]
      exact hlen12
    simp only [IMDBWikiDataset.apply_alpha_to_dataset, hne0, hle, hc1,
      hc2, hall, if_false, if_true, ite_true, ite_false, eq_self_iff_true,
      List.filterMap_append]
    have hcond2 : ((((pick d.majority_idxs nmaj).filterMap d.anno.get? ++
          (pick d.minority_idxs (nt - nmaj)).filterMap
            d.anno.get?).length : ℤ)
        = ((nt : ℤ) - pyInt (a * nt)) + pyInt (a * nt)) := by
      rw [hlen12']; ring
    rw [if_pos hcond2]
    have hguard : |(((pick d.minority_idxs (nt - nmaj)).length : ℚ)) /
        (((pick d.majority_idxs nmaj).filterMap d.anno.get? ++
          (pick d.minority_idxs (nt - nmaj)).filterMap
            d.anno.get?).length : ℚ) - (1 - a)| < 1 / 1000 := by
      rw [hp2len, hlen12']
      exact hfrac
    rw [if_pos hguard]
  rw [key]
  refine ⟨rfl, rfl, ?_, ?_, hfrac⟩
  · show ((pick d.majority_idxs nmaj).filterMap d.anno.get? ++
      (pick d.minority_idxs (nt - nmaj)).filterMap d.anno.get?).length
        = nt
    rw [← List.filterMap_append]
    exact hlen12
  · show ((pick d.majority_idxs nmaj).filterMap d.anno.get? ++
      (pick d.minority_idxs (nt - nmaj)).filterMap
        d.anno.get?).countP
      (fun r => decide (r.gender ∈ minority_group_keys)) = nt - nmaj
    rw [List.countP_append]
    have hg1 := gender_of_mem_filterMap hp1sub
    have hg2 := gender_of_mem_filterMap hp2sub
    have c1 : ((pick d.majority_idxs nmaj).filterMap
        d.anno.get?).countP
        (fun r => decide (r.gender ∈ minority_group_keys)) = 0 := by
      rw [List.countP_eq_zero]
      intro r hr
      have h := hg1 r hr
      simp only [majority_group_keys, List.mem_singleton] at h
      simp [minority_group_keys, h]
    have c2 : ((pick d.minority_idxs (nt - nmaj)).filterMap
        d.anno.get?).countP
        (fun r => decide (r.gender ∈ minority_group_keys)) =
        ((pick d.minority_idxs (nt - nmaj)).filterMap
          d.anno.get?).length := by
      rw [List.countP_eq_length]
      intro r hr
      have h := hg2 r hr
      simpa using h
    rw [c1, c2, filterMap_get?_length _ _ hin2, hp2len]
    omega

/-- Witness for C1 at the balanced six-row table with alpha = 1/2 and
n_train = 4: two majority rows and two minority rows are drawn, and the
minority fraction 2/4 equals 1 − 1/2 exactly. -/
theorem apply_alpha_spec_witness :
    (imdbBalanced.apply_alpha_to_dataset takePick (some (1/2))
        (some 4)).2 = none ∧
    (imdbBalanced.apply_alpha_to_dataset takePick (some (1/2))
        (some 4)).1.anno =
      (takePick imdbBalanced.majority_idxs 2).filterMap
        imdbBalanced.anno.get? ++
      (takePick imdbBalanced.minority_idxs (4 - 2)).filterMap
        imdbBalanced.anno.get? ∧
    (imdbBalanced.apply_alpha_to_dataset takePick (some (1/2))
        (some 4)).1.len = 4 ∧
    (imdbBalanced.apply_alpha_to_dataset takePick (some (1/2))
        (some 4)).1.anno.countP
      (fun r => decide (r.gender ∈ minority_group_keys)) = 4 - 2 ∧
    |((4 - 2 : ℕ) : ℚ) / ((4 : ℕ) : ℚ) - (1 - 1/2)| < 1 / 1000 :=
  apply_alpha_spec imdbBalanced takePick (1/2) 4 2
    (by norm_num) (by norm_num) (by decide)
    (by rw [pyInt_eq_floor (by norm_num)]; push_cast; norm_num)
    (by decide) (by decide) (by decide) (by decide) (by decide)
    (by decide) (by decide) (by decide)
    (by push_cast; norm_num)

/-- C1 counterexample: with alpha = 0.55 and n_train = 10 on a table of
six majority and six minority rows — both group samples fit their groups
and exactly n_train rows are drawn — the call fails its final sanity
check and raises AssertionError: the minority fraction 5/10 misses
1 − 0.55 = 0.45 by 0.05, which is not within 0.001. -/
theorem apply_alpha_ratio_cex :
    (imdbTwelve.apply_alpha_to_dataset takePick (some (11/20))
        (some 10)).2 = some PyError.assertionError ∧
    ¬ (|(5 : ℚ) / 10 - (1 - 11/20)| < 1 / 1000) := by
  have habs : |(5 : ℚ) / 10 - (1 - 11/20)| = 1/20 := by
    rw [abs_of_nonneg (by norm_num)]
    norm_num
  have hdef : pyInt ((11/20 : ℚ) * ((10:ℕ) : ℚ)) = (5 : ℤ) := by
    rw [pyInt_eq_floor (by norm_num)]
    push_cast
    norm_num
  have hc1 : npChoiceNoReplace takePick imdbTwelve.majority_idxs
      (pyInt ((11/20 : ℚ) * ((10:ℕ) : ℚ))) =
      .ok (takePick imdbTwelve.majority_idxs 5) := by
    unfold npChoiceNoReplace
    rw [hdef]
    rfl
  have hc2 : npChoiceNoReplace takePick imdbTwelve.minority_idxs
      (((10:ℕ) : ℤ) - pyInt ((11/20 : ℚ) * ((10:ℕ) : ℚ))) =
      .ok (takePick imdbTwelve.minority_idxs 5) := by
    unfold npChoiceNoReplace
    rw [show (((10:ℕ) : ℤ) - pyInt ((11/20 : ℚ) * ((10:ℕ) : ℚ))) = (5:ℤ)
      from by rw [hdef]; decide]
    rfl
  have h10 : ¬ ((10:ℕ) = 0) := by decide
  have hsum : (10:ℕ) ≤ imdbTwelve.majority_idxs.length +
      imdbTwelve.minority_idxs.length := by decide
  have hall : ((takePick imdbTwelve.majority_idxs 5 ++
      takePick imdbTwelve.minority_idxs 5).all
        (fun i => decide (i < imdbTwelve.anno.length))) = true := by decide
  have hlen : ((takePick imdbTwelve.majority_idxs 5).filterMap
      imdbTwelve.anno.get? ++
      (takePick imdbTwelve.minority_idxs 5).filterMap
        imdbTwelve.anno.get?).length = 10 := by decide
  have hl5 : (takePick imdbTwelve.minority_idxs 5).length = 5 := by decide
  have key : imdbTwelve.apply_alpha_to_dataset takePick (some (11/20))
      (some 10) =
      (IMDBWikiDataset.mk imdbTwelve.root_dir
        ((takePick imdbTwelve.majority_idxs 5).filterMap
            imdbTwelve.anno.get? ++
         (takePick imdbTwelve.minority_idxs 5).filterMap
            imdbTwelve.anno.get?),
       some PyError.assertionError) := by
    simp only [IMDBWikiDataset.apply_alpha_to_dataset, h10, hsum, hc1,
      hc2, hall, if_false, if_true, ite_true, ite_false,
      List.filterMap_append]
    have hcond2 : ((((takePick imdbTwelve.majority_idxs 5).filterMap
          imdbTwelve.anno.get? ++
          (takePick imdbTwelve.minority_idxs 5).filterMap
            imdbTwelve.anno.get?).length : ℤ)
        = (((10:ℕ) : ℤ) - pyInt ((11/20 : ℚ) * ((10:ℕ) : ℚ)))
          + pyInt ((11/20 : ℚ) * ((10:ℕ) : ℚ))) := by
      rw [hlen, hdef]
      decide
    rw [if_pos hcond2]
    have hguard : ¬ (|(((takePick imdbTwelve.minority_idxs 5).length :
          ℕ) : ℚ) /
        (((takePick imdbTwelve.majority_idxs 5).filterMap
          imdbTwelve.anno.get? ++
          (takePick imdbTwelve.minority_idxs 5).filterMap
            imdbTwelve.anno.get?).length : ℚ) - (1 - 11/20)| <
        1 / 1000) := by
      rw [hl5, hlen]
      push_cast
      rw [habs]
      norm_num
    rw [if_neg hguard]
  refine ⟨by rw [key], ?_⟩
  rw [habs]
  norm_num

end DPDI
